import Mathlib

/-!
Verification of the screening-question engine of
`backend/app/services/screening_service.py` against its specification.

The Python data model (`backend/app/models/schemas.py`) is embedded as Lean
structures; `Optional[T]` fields become `Option T` (absent = `none`), lists
with `default_factory=list` become `List` fields defaulting to `[]`.
Python truthiness tests (`if candidate.current_job_title:` etc.) are embedded
explicitly: an `Option String` is truthy exactly when it is `some s` with
`s ≠ ""`, an `Option Int` is truthy exactly when it is `some n` with `n ≠ 0`,
and a list is truthy exactly when it is nonempty.
-/

structure WorkExperience where
  job_title : String
  company : String
  start_date : Option String := none
  end_date : Option String := none
  description : Option String := none
deriving DecidableEq, Repr

structure Education where
  degree : String
  institution : String
  graduation_date : Option String := none
  field_of_study : Option String := none
deriving DecidableEq, Repr

structure Candidate where
  id : Option String := none
  full_name : String
  email : Option String := none
  phone : Option String := none
  current_job_title : Option String := none
  current_company : Option String := none
  location : Option String := none
  skills : List String := []
  certifications : List String := []
  work_experience : List WorkExperience := []
  education : List Education := []
  years_of_experience : Option Int := none
  resume_text : Option String := none
deriving DecidableEq, Repr

structure JobDescription where
  id : Option String := none
  title : String
  company : Option String := none
  description : String
  required_skills : List String := []
  preferred_skills : List String := []
  education_requirements : Option String := none
  experience_requirements : Option String := none
  location : Option String := none
deriving DecidableEq, Repr

structure ScreeningQuestion where
  question : String
  category : String
  source : Option String := none
deriving DecidableEq, Repr

/-- Python str.lower (as on the ASCII range, matching `String.toLower`):
map `Char.toLower` over the characters. -/
def lowerStr (s : String) : String := String.mk (s.data.map Char.toLower)

/-- Helper for pySplit: scan the characters, accumulating the current run of
non-whitespace characters (reversed) and flushing it at each whitespace. -/
def pySplitAux : List Char → List Char → List String
  | [], acc => if acc.isEmpty then [] else [String.mk acc.reverse]
  | c :: cs, acc =>
    if c.isWhitespace then
      if acc.isEmpty then pySplitAux cs []
      else String.mk acc.reverse :: pySplitAux cs []
    else pySplitAux cs (c :: acc)

/-- Python str.split with no argument: split on runs of whitespace,
dropping empty pieces. -/
def pySplit (s : String) : List String := pySplitAux s.data []

/-- Python `needle in haystack` on strings: substring containment. -/
def substrOf (needle haystack : String) : Bool :=
  decide (needle.data <:+: haystack.data)

/-- The current-role verification question (`screening_service.py:55-59`). -/
def roleConfirmQ (t : String) : ScreeningQuestion :=
  { question := s!"Can you confirm your current role as {t}?"
    category := "verification", source := some "resume" }

/-- The years-of-experience verification question (`screening_service.py:61-66`). -/
def yearsQ (n : Int) : ScreeningQuestion :=
  { question := s!"Your resume indicates about {n} years of experience. Is that accurate?"
    category := "verification", source := some "resume" }

/-- The relocation verification question (`screening_service.py:68-73`). -/
def relocationQ (jl cl : String) : ScreeningQuestion :=
  { question := s!"The role is based in {jl}. You\x27re currently in {cl}. Would you be open to relocating or is remote work preferred?"
    category := "verification", source := some "job_description" }

/-- The matched-skill question (`screening_service.py:90-95`). -/
def skillMatchQ (sk : String) : ScreeningQuestion :=
  { question := s!"I see you have experience with {sk}. Can you describe a project where you used this skill and what your specific contribution was?"
    category := "skills", source := some "resume" }

/-- The missing-skill question (`screening_service.py:96-101`). -/
def skillGapQ (sk : String) : ScreeningQuestion :=
  { question := s!"This role requires {sk}. Do you have any experience with this, or related technologies?"
    category := "skills", source := some "job_description" }

/-- The latest-company experience question (`screening_service.py:114-118`). -/
def companyQ (comp : String) : ScreeningQuestion :=
  { question := s!"Tell me about your role at {comp}. What were your main responsibilities?"
    category := "experience", source := some "resume" }

/-- The generic experience question (`screening_service.py:121-125`). -/
def genericExperienceQ (t : String) : ScreeningQuestion :=
  { question := s!"What experience do you have that\x27s most relevant to the {t} position?"
    category := "experience", source := some "job_description" }

/-- The attraction motivation question (`screening_service.py:137-141`);
`comp` is already `job.company` falling back to "our company". -/
def attractionQ (t comp : String) : ScreeningQuestion :=
  { question := s!"What attracted you to apply for the {t} role at {comp}?"
    category := "motivation", source := some "job_description" }

/-- The 2-3-year outlook motivation question (`screening_service.py:143-147`). -/
def outlookQ : ScreeningQuestion :=
  { question := "Where do you see yourself in 2-3 years, and how does this role fit into that?"
    category := "motivation", source := some "general" }

/-- The career-transition (pivot) question (`screening_service.py:155-160`). -/
def transitionQ (ct jt : String) : ScreeningQuestion :=
  { question := s!"Your background is in {ct}, but you\x27re applying for {jt}. What\x27s driving this career transition?"
    category := "motivation", source := some "resume" }

/-- The availability/logistics question (`screening_service.py:172-176`). -/
def logisticsQ : ScreeningQuestion :=
  { question := "What is your availability to start? Are you currently in a notice period?"
    category := "logistics", source := some "general" }

/-- Embedding of `generate_verification_questions` (`screening_service.py:47-75`). -/
def generate_verification_questions (candidate : Candidate) (job : JobDescription) :
    List ScreeningQuestion :=
  (match candidate.current_job_title with
   | some t => if t ≠ "" then [roleConfirmQ t] else []
   | none => [])
  ++ (match candidate.years_of_experience with
   | some n => if n ≠ 0 then [yearsQ n] else []
   | none => [])
  ++ (match candidate.location, job.location with
   | some cl, some jl => if cl ≠ "" ∧ jl ≠ "" then [relocationQ jl cl] else []
   | _, _ => [])

/-- Embedding of `generate_skill_questions` (`screening_service.py:78-103`): iterate over the
first three required skills, case-insensitive membership test against the
candidate skills. -/
def generate_skill_questions (candidate : Candidate) (job : JobDescription) :
    List ScreeningQuestion :=
  let candidate_skills_lower := candidate.skills.map lowerStr
  (job.required_skills.take 3).map (fun required_skill =>
    if candidate_skills_lower.contains (lowerStr required_skill) then
      skillMatchQ required_skill
    else
      skillGapQ required_skill)

/-- Embedding of `generate_experience_questions` (`screening_service.py:106-127`): the
`work_experience[0]` access is guarded by a truthiness test on the list. -/
def generate_experience_questions (candidate : Candidate) (job : JobDescription) :
    List ScreeningQuestion :=
  (match candidate.work_experience with
   | latest_job :: _ => [companyQ latest_job.company]
   | [] => [])
  ++ [genericExperienceQ job.title]

/-- Embedding of the fallback `job.company or "our company"` (`screening_service.py:138`). -/
def companyOrDefault (company : Option String) : String :=
  match company with
  | some s => if s ≠ "" then s else "our company"
  | none => "our company"

/-- Embedding of `generate_role_fit_questions` (`screening_service.py:130-162`). -/
def generate_role_fit_questions (candidate : Candidate) (job : JobDescription) :
    List ScreeningQuestion :=
  [attractionQ job.title (companyOrDefault job.company), outlookQ]
  ++ (match candidate.current_job_title with
   | some t =>
      if t ≠ "" ∧ job.title ≠ "" then
        let candidate_title_lower := lowerStr t
        let job_title_lower := lowerStr job.title
        if !(pySplit candidate_title_lower).any (fun word => substrOf word job_title_lower) then
          [transitionQ t job.title]
        else []
      else []
   | none => [])

/-- Embedding of `generate_gap_questions` (`screening_service.py:165-178`). -/
def generate_gap_questions (_candidate : Candidate) (_job : JobDescription) :
    List ScreeningQuestion :=
  [logisticsQ]

/-- Embedding of `generate_screening_questions` (`screening_service.py:13-44`): run the five
sub-generators in fixed order and concatenate their outputs. -/
def generate_screening_questions (candidate : Candidate) (job : JobDescription) :
    List ScreeningQuestion :=
  generate_verification_questions candidate job
  ++ generate_skill_questions candidate job
  ++ generate_experience_questions candidate job
  ++ generate_role_fit_questions candidate job
  ++ generate_gap_questions candidate job

/-! Concrete fixtures used by scenario theorems and witnesses. -/

def cJane : Candidate :=
  { full_name := "Jane Doe", current_job_title := some "Data Analyst",
    years_of_experience := some 3, skills := ["SQL", "Python"] }

def jDataEng : JobDescription :=
  { title := "Data Engineer", description := "Build data pipelines.",
    required_skills := ["Python", "Spark", "SQL"] }

def cZeroYears : Candidate := { full_name := "Pat Zero", years_of_experience := some 0 }

def cFiveYears : Candidate := { full_name := "Pat Five", years_of_experience := some 5 }

def cMarketing : Candidate :=
  { full_name := "Mo Marketer", current_job_title := some "Marketing Manager" }

def jSoftwareEng : JobDescription :=
  { title := "Software Engineer", description := "Write software." }

def cNewGrad : Candidate := { full_name := "Ada" }

def cEmptyTitle : Candidate := { full_name := "Eve", current_job_title := some "" }

def cWithHistory : Candidate :=
  { full_name := "Lee", work_experience := [{ job_title := "Dev", company := "Acme" }] }

/-- Claim C1, the claim as frozen is false on the code: for the concrete
candidate `cZeroYears`, whose `years_of_experience` is present with value `0`,
`generate_verification_questions` emits no question at all — the guard
`if candidate.years_of_experience:` is a Python truthiness test, and `0` is
falsy, so a present-but-zero value is NOT treated like other present
integers. -/
theorem C1_counterexample :
    cZeroYears.years_of_experience = some 0
    ∧ generate_verification_questions cZeroYears jDataEng = [] :=
  ⟨rfl, rfl⟩

/-- Claim C1 (amended): a present `years_of_experience` of `0` is treated
exactly like an absent one (the verification questions are unchanged by
replacing `some 0` with `none`), while any present nonzero value emits the
years-of-experience verification question. -/
theorem C1_zero_years_suppressed (c : Candidate) (j : JobDescription) (n : Int)
    (h : c.years_of_experience = some n) :
    (n = 0 → generate_verification_questions c j
       = generate_verification_questions { c with years_of_experience := none } j)
    ∧ (n ≠ 0 → yearsQ n ∈ generate_verification_questions c j) := by
  constructor
  · intro hn
    subst hn
    simp [generate_verification_questions, h]
  · intro hn
    simp [generate_verification_questions, h, hn]

/-- Witness for `C1_zero_years_suppressed` at the concrete candidates
`cZeroYears` (value 0: suppressed) and `cFiveYears` (value 5: emitted). -/
theorem C1_zero_years_suppressed_witness :
    (generate_verification_questions cZeroYears jDataEng
       = generate_verification_questions
           { cZeroYears with years_of_experience := none } jDataEng)
    ∧ yearsQ 5 ∈ generate_verification_questions cFiveYears jDataEng :=
  ⟨(C1_zero_years_suppressed cZeroYears jDataEng 0 rfl).1 rfl,
   (C1_zero_years_suppressed cFiveYears jDataEng 5 rfl).2 (by decide)⟩

/-- Claim C3: on Scenario A — candidate Jane Doe (Data Analyst, 3 years,
skills SQL and Python) applying to the Data Engineer job requiring Python,
Spark, SQL — `generate_screening_questions` returns exactly 9 questions:
2 verification, then 3 skills whose sources are resume (Python, matched),
job_description (Spark, unmatched), resume (SQL, matched), then 1 generic
experience question, 2 motivation questions (no pivot question, since the
token "data" of the candidate title occurs in the job title), and
1 logistics question. -/
theorem C3_scenario_A :
    (generate_screening_questions cJane jDataEng).length = 9
    ∧ (generate_screening_questions cJane jDataEng).map (fun q => q.category)
        = ["verification", "verification", "skills", "skills", "skills",
           "experience", "motivation", "motivation", "logistics"]
    ∧ (generate_screening_questions cJane jDataEng).map (fun q => q.source)
        = [some "resume", some "resume", some "resume", some "job_description",
           some "resume", some "job_description", some "job_description",
           some "general", some "general"] :=
  ⟨rfl, rfl, rfl⟩

/-- Claim C5: every run of `generate_screening_questions` returns at least 4
questions (the generic experience question, the two motivation questions and
the logistics question are unconditional), and on a minimal candidate (only
`full_name`) and minimal job (only `title` and `description`) the output is
exactly those four questions, in order. -/
theorem C5_minimum_output :
    (∀ (c : Candidate) (j : JobDescription),
       4 ≤ (generate_screening_questions c j).length)
    ∧ (∀ (nm t d : String),
       generate_screening_questions { full_name := nm } { title := t, description := d }
         = [genericExperienceQ t, attractionQ t "our company", outlookQ, logisticsQ]) := by
  constructor
  · intro c j
    have he : 1 ≤ (generate_experience_questions c j).length := by
      unfold generate_experience_questions
      cases c.work_experience <;> simp
    have hr : 2 ≤ (generate_role_fit_questions c j).length := by
      unfold generate_role_fit_questions
      simp
    simp only [generate_screening_questions, generate_gap_questions,
      List.length_append, List.length_cons, List.length_nil]
    omega
  · intro nm t d
    rfl

/-- Claim C8: `generate_screening_questions` is deterministic — it is a pure
function of the candidate and job records, so equal inputs give equal output
lists (same questions, same text, category and source, same order). -/
theorem C8_deterministic (c₁ c₂ : Candidate) (j₁ j₂ : JobDescription)
    (hc : c₁ = c₂) (hj : j₁ = j₂) :
    generate_screening_questions c₁ j₁ = generate_screening_questions c₂ j₂ := by
  rw [hc, hj]

/-- Witness for `C8_deterministic` at the Scenario A fixtures. -/
theorem C8_deterministic_witness :
    generate_screening_questions cJane jDataEng
      = generate_screening_questions cJane jDataEng :=
  C8_deterministic cJane cJane jDataEng jDataEng rfl rfl

/-- Claim C9: the output of `generate_screening_questions` does not depend on
`job.preferred_skills` — replacing that field by any list leaves the output
unchanged. -/
theorem C9_preferred_skills_unused (c : Candidate) (j : JobDescription)
    (ps : List String) :
    generate_screening_questions c { j with preferred_skills := ps }
      = generate_screening_questions c j := by
  cases j
  rfl

/-- Claim C10: a present-but-empty `current_job_title` behaves exactly like an
absent one — both the current-role verification question and the pivot check
are guarded by Python truthiness, so replacing `some ""` by `none` changes
neither `generate_verification_questions` nor `generate_role_fit_questions`. -/
theorem C10_empty_title_like_absent (c : Candidate) (j : JobDescription)
    (h : c.current_job_title = some "") :
    generate_verification_questions c j
      = generate_verification_questions { c with current_job_title := none } j
    ∧ generate_role_fit_questions c j
      = generate_role_fit_questions { c with current_job_title := none } j := by
  constructor
  · simp [generate_verification_questions, h]
  · simp [generate_role_fit_questions, h]

/-- Witness for `C10_empty_title_like_absent` at the concrete candidate
`cEmptyTitle`, whose `current_job_title` is `some ""`. -/
theorem C10_empty_title_like_absent_witness :
    generate_verification_questions cEmptyTitle jDataEng
      = generate_verification_questions
          { cEmptyTitle with current_job_title := none } jDataEng
    ∧ generate_role_fit_questions cEmptyTitle jDataEng
      = generate_role_fit_questions
          { cEmptyTitle with current_job_title := none } jDataEng :=
  C10_empty_title_like_absent cEmptyTitle jDataEng rfl

/-- Claim C2: `generate_skill_questions` produces exactly
`min 3 job.required_skills.length` questions — one per skill among the first
three required skills, in listed order; a skill matching some candidate skill
case-insensitively yields the matched-skill question (category "skills",
source "resume"), an unmatched one yields the missing-skill question
(category "skills", source "job_description"). -/
theorem C2_skill_questions (c : Candidate) (j : JobDescription) :
    generate_skill_questions c j
      = (j.required_skills.take 3).map (fun sk =>
          if ∃ s ∈ c.skills, lowerStr s = lowerStr sk then skillMatchQ sk
          else skillGapQ sk)
    ∧ (generate_skill_questions c j).length = min 3 j.required_skills.length := by
  constructor
  · show (j.required_skills.take 3).map (fun required_skill =>
        if (c.skills.map lowerStr).contains (lowerStr required_skill) then
          skillMatchQ required_skill
        else skillGapQ required_skill)
      = _
    congr 1
    funext sk
    have h : (c.skills.map lowerStr).contains (lowerStr sk) = true
        ↔ ∃ s ∈ c.skills, lowerStr s = lowerStr sk := by
      simp [List.elem_iff]
    exact if_congr h rfl rfl
  · simp [generate_skill_questions]

/-- Claim C4: with both titles present and non-empty, the career-transition
question is emitted exactly when no whitespace token of the lower-cased
candidate title occurs as a substring of the lower-cased job title; with the
candidate title absent or empty, or the job title empty, the pivot check does
not run and only the two unconditional motivation questions are returned. -/
theorem C4_pivot_heuristic (c : Candidate) (j : JobDescription) :
    (∀ t, c.current_job_title = some t → t ≠ "" → j.title ≠ "" →
      generate_role_fit_questions c j
        = [attractionQ j.title (companyOrDefault j.company), outlookQ]
          ++ (if ∀ w ∈ pySplit (lowerStr t), ¬ w.data <:+: (lowerStr j.title).data
             then [transitionQ t j.title] else []))
    ∧ ((c.current_job_title = none ∨ c.current_job_title = some "" ∨ j.title = "") →
      generate_role_fit_questions c j
        = [attractionQ j.title (companyOrDefault j.company), outlookQ]) := by
  constructor
  · intro t ht hne hjne
    unfold generate_role_fit_questions
    rw [ht]
    simp only [hne, hjne, ne_eq, not_false_iff, and_self, if_true]
    congr 1
    have h : (!(pySplit (lowerStr t)).any
          (fun word => substrOf word (lowerStr j.title))) = true
        ↔ ∀ w ∈ pySplit (lowerStr t), ¬ w.data <:+: (lowerStr j.title).data := by
      simp [substrOf]
    exact if_congr h rfl rfl
  · intro hcase
    unfold generate_role_fit_questions
    rcases hcase with h | h | h
    · rw [h]; rfl
    · rw [h]; simp
    · cases hct : c.current_job_title with
      | none => rfl
      | some t => simp [h]

/-- Witness for `C4_pivot_heuristic`: the pivot question is emitted for a
Marketing Manager applying to a Software Engineer role (no token overlap) and
not for Jane Doe (Data Analyst) applying to the Data Engineer role (the token
"data" overlaps). -/
theorem C4_pivot_heuristic_witness :
    generate_role_fit_questions cMarketing jSoftwareEng
      = [attractionQ "Software Engineer" "our company", outlookQ,
         transitionQ "Marketing Manager" "Software Engineer"]
    ∧ generate_role_fit_questions cJane jDataEng
      = [attractionQ "Data Engineer" "our company", outlookQ] := by
  constructor
  · rw [(C4_pivot_heuristic cMarketing jSoftwareEng).1 "Marketing Manager" rfl
      (by decide) (by decide)]
    rfl
  · rw [(C4_pivot_heuristic cJane jDataEng).1 "Data Analyst" rfl
      (by decide) (by decide)]
    rfl

/-- Claim C6: `generate_screening_questions` is exactly the concatenation, in
fixed order, of the five sub-generators (verification, skills, experience,
role-fit/motivation, gap/logistics), each of which only emits questions of its
own category — so earlier questions of earlier sub-generators never appear after later
ones and intra-generator order is preserved. -/
theorem C6_fixed_order (c : Candidate) (j : JobDescription) :
    generate_screening_questions c j
      = generate_verification_questions c j ++ generate_skill_questions c j
        ++ generate_experience_questions c j ++ generate_role_fit_questions c j
        ++ generate_gap_questions c j
    ∧ (∀ q ∈ generate_verification_questions c j, q.category = "verification")
    ∧ (∀ q ∈ generate_skill_questions c j, q.category = "skills")
    ∧ (∀ q ∈ generate_experience_questions c j, q.category = "experience")
    ∧ (∀ q ∈ generate_role_fit_questions c j, q.category = "motivation")
    ∧ (∀ q ∈ generate_gap_questions c j, q.category = "logistics") := by
  refine ⟨rfl, ?_, ?_, ?_, ?_, ?_⟩
  · intro q hq
    unfold generate_verification_questions at hq
    simp only [List.mem_append] at hq
    rcases hq with (h | h) | h <;> split at h <;>
      (try split at h) <;>
      simp_all [roleConfirmQ, yearsQ, relocationQ]
  · intro q hq
    unfold generate_skill_questions at hq
    simp only [List.mem_map] at hq
    obtain ⟨sk, -, rfl⟩ := hq
    split <;> rfl
  · intro q hq
    unfold generate_experience_questions at hq
    simp only [List.mem_append] at hq
    rcases hq with h | h
    · split at h <;> simp_all [companyQ]
    · simp_all [genericExperienceQ]
  · intro q hq
    unfold generate_role_fit_questions at hq
    simp only [List.mem_append] at hq
    rcases hq with h | h
    · simp only [List.mem_cons, List.not_mem_nil, or_false] at h
      rcases h with rfl | rfl <;> rfl
    · split at h <;> (try split at h) <;> (try split at h) <;>
      simp_all [transitionQ]
  · intro q hq
    simp_all [generate_gap_questions, logisticsQ]

/-- Witness for `C6_fixed_order` at the Scenario A fixtures, using the
concatenation part and, for the category parts, the concrete membership of
the current-role question and of the logistics question. -/
theorem C6_fixed_order_witness :
    generate_screening_questions cJane jDataEng
      = generate_verification_questions cJane jDataEng
        ++ generate_skill_questions cJane jDataEng
        ++ generate_experience_questions cJane jDataEng
        ++ generate_role_fit_questions cJane jDataEng
        ++ generate_gap_questions cJane jDataEng
    ∧ (roleConfirmQ "Data Analyst").category = "verification"
    ∧ logisticsQ.category = "logistics" :=
  ⟨(C6_fixed_order cJane jDataEng).1,
   (C6_fixed_order cJane jDataEng).2.1 _ (by decide),
   (C6_fixed_order cJane jDataEng).2.2.2.2.2 _ (by decide)⟩

/-- Claim C7: partially-populated records are tolerated — absence of a field
only suppresses the dependent questions and the `work_experience[0]` access is
reached only on a nonempty list: with empty work experience the experience
generator returns just the generic question, with nonempty work experience it
prepends the question about the company of the first entry; with the three guarded
candidate fields absent the verification generator returns no questions; and
with no required skills the skills generator returns no questions. (The
embedding is total, so no input raises an error.) -/
theorem C7_partial_inputs (c : Candidate) (j : JobDescription) :
    (c.work_experience = [] →
       generate_experience_questions c j = [genericExperienceQ j.title])
    ∧ (∀ w ws, c.work_experience = w :: ws →
       generate_experience_questions c j
         = [companyQ w.company, genericExperienceQ j.title])
    ∧ (c.current_job_title = none → c.years_of_experience = none →
       c.location = none → generate_verification_questions c j = [])
    ∧ (j.required_skills = [] → generate_skill_questions c j = []) := by
  refine ⟨?_, ?_, ?_, ?_⟩ <;> intros <;>
    simp_all [generate_experience_questions, generate_verification_questions,
      generate_skill_questions]

/-- Witness for `C7_partial_inputs` at concrete records: a candidate with no
work history, one with a single Acme entry, a candidate with every optional
field absent, and a job with no required skills. -/
theorem C7_partial_inputs_witness :
    generate_experience_questions cNewGrad jDataEng
      = [genericExperienceQ "Data Engineer"]
    ∧ generate_experience_questions cWithHistory jDataEng
      = [companyQ "Acme", genericExperienceQ "Data Engineer"]
    ∧ generate_verification_questions cNewGrad jDataEng = []
    ∧ generate_skill_questions cNewGrad jSoftwareEng = [] :=
  ⟨(C7_partial_inputs cNewGrad jDataEng).1 rfl,
   (C7_partial_inputs cWithHistory jDataEng).2.1 _ _ rfl,
   (C7_partial_inputs cNewGrad jDataEng).2.2.1 rfl rfl rfl,
   (C7_partial_inputs cNewGrad jSoftwareEng).2.2.2 rfl⟩
